import Mathlib

/-!
Shallow embedding of the Dhan live-market-data feed client
(`src/lib/firebase.ts`, second revision of the module, which the spec
treats as canonical).  Buffers are modelled as lists of byte values,
JavaScript numbers used for the reconnect delay as rationals (every value
reached by the backoff arithmetic is exactly representable in an IEEE-754
double), IEEE-754 single-precision tick prices by an explicit decoder
into an extended-rational type, and the JavaScript `Map`s by association
lists with `Map.set` / `Map.get` / `Map.delete` semantics.
-/

namespace DhanFeed

/-! ## Association-list model of JavaScript `Map` -/

/-- `Map.set`: overwrite in place when the key is present (JS maps keep
insertion order), otherwise append a fresh entry. -/
def mapSet {κ α : Type} [DecidableEq κ] (m : List (κ × α)) (k : κ) (v : α) :
    List (κ × α) :=
  if m.any (fun e => e.1 = k) then
    m.map (fun e => if e.1 = k then (k, v) else e)
  else
    m ++ [(k, v)]

/-- `Map.get`: value stored under `k`, if any. -/
def mapGet {κ α : Type} [DecidableEq κ] (m : List (κ × α)) (k : κ) : Option α :=
  (m.find? (fun e => e.1 = k)).map (fun e => e.2)

/-- `Map.delete`: drop the entry stored under `k`. -/
def mapDelete {κ α : Type} [DecidableEq κ] (m : List (κ × α)) (k : κ) :
    List (κ × α) :=
  m.filter (fun e => ¬ e.1 = k)

/-! ## Binary tick codec (`parseBinaryTick`) -/

/-- `buffer.readUInt8(off)`.  `parseBinaryTick` only reads inside the
16-byte prefix after checking `buffer.length < 16`, so the default value
is never consulted on the guarded path. -/
def readUInt8 (buf : List ℕ) (off : ℕ) : ℕ := buf.getD off 0

/-- `buffer.readUInt32LE(off)`: little-endian 32-bit unsigned read. -/
def readUInt32LE (buf : List ℕ) (off : ℕ) : ℕ :=
  readUInt8 buf off + 256 * readUInt8 buf (off + 1) +
    256 ^ 2 * readUInt8 buf (off + 2) + 256 ^ 3 * readUInt8 buf (off + 3)

/-- Value of an IEEE-754 binary32 number: either an exact rational, or
one of the non-finite values. -/
inductive F32 where
  | finite (val : ℚ)
  | posInf
  | negInf
  | nan
deriving DecidableEq

/-- Decode a 32-bit word as an IEEE-754 binary32 value.  A finite float
`(1 + m / 2^23) * 2^(e - 127)` is the rational `(2^23 + m) * 2^e / 2^150`;
subnormals are `m / 2^149`. -/
def decodeFloat32 (w : ℕ) : F32 :=
  let sign : ℕ := w / 2 ^ 31 % 2
  let expField : ℕ := w / 2 ^ 23 % 2 ^ 8
  let mantissa : ℕ := w % 2 ^ 23
  if expField = 255 then
    if mantissa = 0 then (if sign = 1 then .negInf else .posInf) else .nan
  else
    let mag : ℚ :=
      if expField = 0 then (mantissa : ℚ) / 2 ^ 149
      else ((2 ^ 23 + mantissa : ℚ) * 2 ^ expField) / 2 ^ 150
    .finite (if sign = 1 then -mag else mag)

/-- `buffer.readFloatLE(off)`. -/
def readFloatLE (buf : List ℕ) (off : ℕ) : F32 :=
  decodeFloat32 (readUInt32LE buf off)

/-- Result record of `parseBinaryTick`. -/
structure RawTick where
  messageType : ℕ
  securityId : ℕ
  price : F32
  timestamp : ℕ
deriving DecidableEq

/-- `parseBinaryTick` (`src/lib/firebase.ts` lines 512-548): reject
buffers shorter than 16 bytes, otherwise read the fixed little-endian
layout.  The reads are in bounds once the length guard passed, so the
`try`/`catch` around them never fires. -/
def parseBinaryTick (buf : List ℕ) : Option RawTick :=
  if buf.length < 16 then none
  else
    some { messageType := readUInt8 buf 0
           securityId := readUInt32LE buf 4
           price := readFloatLE buf 8
           timestamp := readUInt32LE buf 12 }

/-! ## Instruments and symbol resolution -/

/-- A configured instrument (`DhanInstrument`): human-readable symbol,
feed security id and exchange segment, all strings.  A missing field of
the TypeScript object is the falsy empty string. -/
structure Instrument where
  symbol : String
  securityId : String
  exchange : String
deriving DecidableEq

/-- Construction of the id→symbol lookup table (module-level loop over
`STOCK_INSTRUMENTS`, lines 397-403).  Runs unconditionally: no
validation happens here. -/
def buildSymbolTable (insts : List Instrument) : List (String × String) :=
  insts.foldl (fun m i => mapSet m i.securityId i.symbol) []

/-- `resolveSymbol` (lines 504-510): falsy argument (absent, or the
empty string) gives `"UNKNOWN"`; otherwise the table's symbol, with the
deterministic fallback `"securityId:<id>"`. -/
def resolveSymbol (table : List (String × String)) (securityId : Option String) :
    String :=
  match securityId with
  | none => "UNKNOWN"
  | some sid =>
      if sid = "" then "UNKNOWN"
      else (mapGet table sid).getD ("securityId:" ++ sid)

/-- `validateInstruments` (lines 416-425): an instrument is invalid when
its `securityId` or `exchange` is falsy (empty). -/
def invalidInstruments (insts : List Instrument) : List Instrument :=
  insts.filter (fun i => i.securityId = "" || i.exchange = "")

/-! ## Market clock -/

/-- `isMarketOpen` (second revision, lines 427-440): minutes since
midnight UTC plus a fixed 330-minute offset, compared inclusively
against 09:15 and 15:30 IST. -/
def isMarketOpen (utcHours utcMinutes : ℕ) : Bool :=
  let istMinutes := utcHours * 60 + utcMinutes + 330
  let marketOpen := 9 * 60 + 15
  let marketClose := 15 * 60 + 30
  decide (marketOpen ≤ istMinutes) && decide (istMinutes ≤ marketClose)

/-- Spec-side reading of the market clock, for comparison with the
code: minutes-since-midnight *of the IST day* (UTC+5:30, wrapped modulo
one day), within `[09:15, 15:30]` inclusive. -/
def istMinutesOfDay (utcHours utcMinutes : ℕ) : ℕ :=
  (utcHours * 60 + utcMinutes + 330) % 1440

/-- Spec-side market-activity predicate built on `istMinutesOfDay`. -/
def isActiveSpec (utcHours utcMinutes : ℕ) : Bool :=
  decide (9 * 60 + 15 ≤ istMinutesOfDay utcHours utcMinutes) &&
    decide (istMinutesOfDay utcHours utcMinutes ≤ 15 * 60 + 30)

/-! ## Subscription encoding (`subscribeToStockCodes`, revision 2) -/

/-- A JSON message sent on the socket by the subscription routine. -/
inductive OutMsg where
  | subscribe (requestCode : ℕ) (instrumentCount : ℕ)
      (instrumentList : List (String × String))
  | modeSet (requestCode : ℕ) (mode : ℕ)
deriving DecidableEq

/-- `BATCH_SIZE` (line 461). -/
def BATCH_SIZE : ℕ := 100

/-- The `for (let i = 0; i < total; i += BATCH_SIZE)` loop of lines
466-484: one subscribe payload per consecutive `slice(i, i + BATCH_SIZE)`
chunk, `RequestCode` 15, `InstrumentCount` the chunk length,
`InstrumentList` the `{ExchangeSegment, SecurityId}` pairs in order. -/
def subscribeBatches (insts : List Instrument) : List OutMsg :=
  if insts = [] then []
  else
    OutMsg.subscribe 15 (insts.take BATCH_SIZE).length
        ((insts.take BATCH_SIZE).map (fun i => (i.exchange, i.securityId)))
      :: subscribeBatches (insts.drop BATCH_SIZE)
termination_by insts.length
decreasing_by
  simp only [List.length_drop]
  cases insts with
  | nil => simp_all
  | cons a l => simp [BATCH_SIZE]; omega

/-- All messages produced once the guards passed: the subscribe batches
followed by the single mode-set payload `{RequestCode: 16, Mode: 1}`
(lines 490-497). -/
def encodeSubscription (insts : List Instrument) : List OutMsg :=
  subscribeBatches insts ++ [OutMsg.modeSet 16 1]

/-- `subscribeToStockCodes` (revision 2, lines 446-499).  Early return
when the market is closed or the socket is not open sends nothing;
`validateInstruments` throws (modelled as `.error`) before any send;
otherwise the encoded messages are sent in order. -/
def subscribeToStockCodes (marketOpen wsOpen : Bool) (insts : List Instrument) :
    Except String (List OutMsg) :=
  if !marketOpen then .ok []
  else if !wsOpen then .ok []
  else if (invalidInstruments insts).length > 0 then
    .error "Invalid Dhan instrument mapping"
  else .ok (encodeSubscription insts)

/-- Messages actually written to the socket by a run of
`subscribeToStockCodes`: none when it threw. -/
def sentMessages : Except String (List OutMsg) → List OutMsg
  | .ok msgs => msgs
  | .error _ => []

/-! ## Tick store and SSE broadcaster -/

/-- `TickData` (lines 327-334). -/
structure TickData where
  securityId : ℕ
  symbol : String
  price : F32
  timestamp : ℕ
  messageType : ℕ
  messageTypeLabel : String
deriving DecidableEq

/-- A message enqueued on an SSE client's stream. -/
inductive StreamMsg where
  | initial (data : List TickData)
  | tick (data : TickData)
deriving DecidableEq

/-- The SSE client registry: client id paired with the ordered log of
messages enqueued on that client's stream.  Delivery failure (a gone
consumer) is not modelled; every enqueue succeeds. -/
abbrev Clients : Type := List (String × List StreamMsg)

/-- `subscribeToTicks` (lines 354-374): register the sink, then enqueue
one `initial` message carrying `Array.from(tickDataStore.values())` —
but only when that array is non-empty. -/
def subscribeToTicks (store : List (ℕ × TickData)) (id : String)
    (clients : Clients) : Clients :=
  let initialData := store.map (fun e => e.2)
  let delivered := if initialData.length > 0 then [StreamMsg.initial initialData] else []
  mapSet clients id delivered

/-- The unsubscribe closure returned by `subscribeToTicks`:
`sseClients.delete(id)`. -/
def unsubscribeTicks (id : String) (clients : Clients) : Clients :=
  mapDelete clients id

/-- `broadcastTickData` (lines 376-392): enqueue a `tick` message on
every registered client. -/
def broadcastTickData (t : TickData) (clients : Clients) : Clients :=
  clients.map (fun c => (c.1, c.2 ++ [StreamMsg.tick t]))

/-- `getTickData` (lines 347-352).  `if (securityId)` is JavaScript
truthiness: an absent argument or the number `0` selects the whole-map
branch. -/
inductive TickQuery where
  | record (t : Option TickData)
  | wholeStore (m : List (ℕ × TickData))
deriving DecidableEq

def getTickData (store : List (ℕ × TickData)) (securityId : Option ℕ) :
    TickQuery :=
  match securityId with
  | some id => if id ≠ 0 then .record (mapGet store id) else .wholeStore store
  | none => .wholeStore store

/-! ## Message handling (`handleMessage`, revision 2) -/

/-- Data delivered by the `ws` library to the message handler. -/
inductive WsData where
  | text (s : String)
  | binary (buf : List ℕ)

/-- Combined mutable state touched by the message path: the tick store
plus the SSE registry.  The connection-lifecycle variables (`ws`,
`isConnecting`, `reconnectDelay`, `reconnectTimer`) live in `MgrState`
below; `handleMessage` never reads or writes them. -/
structure FeedState where
  store : List (ℕ × TickData)
  clients : Clients
deriving DecidableEq

/-- `handleMessage` (lines 550-602): non-binary data is only logged;
binary data is parsed by `parseBinaryTick`, and on failure the frame is
dropped.  On success the symbol is resolved via
`resolveSymbol(String(securityId))`, the record stored under its
security id, and broadcast to every SSE client. -/
def handleMessage (table : List (String × String)) (data : WsData)
    (s : FeedState) : FeedState :=
  match data with
  | .text _ => s
  | .binary buf =>
      match parseBinaryTick buf with
      | none => s
      | some t =>
          let symbol := resolveSymbol table (some (toString t.securityId))
          let label :=
            if t.messageType = 2 then "LTP"
            else if t.messageType = 6 then "QUOTE"
            else "TYPE_" ++ toString t.messageType
          let td : TickData :=
            { securityId := t.securityId, symbol := symbol, price := t.price,
              timestamp := t.timestamp, messageType := t.messageType,
              messageTypeLabel := label }
          { store := mapSet s.store t.securityId td,
            clients := broadcastTickData td s.clients }

/-! ## Connection lifecycle (`connectWebSocket` and friends) -/

/-- `ws.readyState` of an existing WebSocket object. -/
inductive ReadyState where
  | connecting
  | open
  | closing
  | closed
deriving DecidableEq

/-- The module-level connection variables (lines 319-322), together with
the delay carried by a pending reconnect timer and a ghost flag
recording whether `connectWebSocket` ever constructed a transport. -/
structure MgrState where
  ws : Option ReadyState
  isConnecting : Bool
  reconnectDelay : ℚ
  pendingTimer : Option ℚ
  attempted : Bool
deriving DecidableEq

/-- Module-load state: `ws = null`, `isConnecting = false`,
`reconnectDelay = 5000`, no timer. -/
def initialMgrState : MgrState :=
  { ws := none, isConnecting := false, reconnectDelay := 5000,
    pendingTimer := none, attempted := false }

/-- `connectWebSocket` (lines 612-675), with credentials present so
`validateEnv` does not throw: no-op when already connecting or holding a
transport, otherwise construct a transport (readyState CONNECTING) and
set `isConnecting`. -/
def connectWebSocket (s : MgrState) : MgrState :=
  if s.isConnecting || !(s.ws = none) then s
  else { s with ws := some .connecting, isConnecting := true, attempted := true }

/-- The `open` event (handler at lines 628-636): the transport is now
OPEN, `isConnecting` drops, and `reconnectDelay` resets to 5000. -/
def onOpen (s : MgrState) : MgrState :=
  { s with ws := some .open, isConnecting := false, reconnectDelay := 5000 }

/-- The `close` event (handler at lines 662-674): drop the transport,
clear `isConnecting`, and schedule a reconnect timer with the *current*
`reconnectDelay`. -/
def onClose (s : MgrState) : MgrState :=
  { s with ws := none, isConnecting := false,
           pendingTimer := some s.reconnectDelay }

/-- The reconnect timer firing (callback at lines 670-673): grow
`reconnectDelay` by the factor 1.5 capped at 60000, then call
`connectWebSocket`. -/
def onTimerFire (s : MgrState) : MgrState :=
  connectWebSocket
    { s with pendingTimer := none,
             reconnectDelay := min (s.reconnectDelay * (3 / 2)) 60000 }

/-- `getSocketStatus` (lines 686-701). -/
inductive SocketStatus where
  | connecting
  | open
  | closed
  | notInitialized
deriving DecidableEq

def getSocketStatus (s : MgrState) : SocketStatus :=
  match s.ws with
  | none => if s.isConnecting then .connecting else .notInitialized
  | some .open => .open
  | some .connecting => .connecting
  | some _ => .closed

/-- One close/fire reconnect cycle: the transport closes, later the
timer fires and a fresh connect attempt starts. -/
def closeFireCycle (s : MgrState) : MgrState :=
  onTimerFire (onClose s)

/-- State after `n` complete close/fire cycles starting from `s0`, with
no successful open in between. -/
def stateAfterCycles (s0 : MgrState) : ℕ → MgrState
  | 0 => s0
  | n + 1 => closeFireCycle (stateAfterCycles s0 n)

/-- Delay passed to `setTimeout` by the `(n+1)`-th close after `s0`, in
a run where closes alternate with timer fires and no open intervenes. -/
def nthScheduledDelay (s0 : MgrState) (n : ℕ) : Option ℚ :=
  (onClose (stateAfterCycles s0 n)).pendingTimer

/-- Ticks delivered after a subscription: fold `broadcastTickData` over
a list of published records. -/
def applyBroadcasts (ts : List TickData) (cs : Clients) : Clients :=
  ts.foldl (fun acc t => broadcastTickData t acc) cs

/-! ## Helper lemmas -/

theorem length_le_toDigitsCore (b : ℕ) :
    ∀ (fuel n : ℕ) (ds : List Char),
      ds.length ≤ (Nat.toDigitsCore b fuel n ds).length := by
  intro fuel
  induction fuel with
  | zero => intro n ds; simp [Nat.toDigitsCore]
  | succ f ih =>
      intro n ds
      simp only [Nat.toDigitsCore]
      split
      · simp
      · exact le_trans (by simp) (ih (n / b) (Nat.digitChar (n % b) :: ds))

theorem toDigits_ne_nil (b n : ℕ) : Nat.toDigits b n ≠ [] := by
  simp only [Nat.toDigits, Nat.toDigitsCore]
  split
  · simp
  · intro hc
    have hlen := length_le_toDigitsCore b n (n / b) [Nat.digitChar (n % b)]
    rw [hc] at hlen
    simp at hlen

/-- The decimal form of a natural number is never the empty string, so
`resolveSymbol` never sees a falsy argument on the tick path. -/
theorem natToString_ne_empty (n : ℕ) : toString n ≠ "" := by
  intro hc
  exact toDigits_ne_nil 10 n (congrArg String.data hc)

/-! ## Claim theorems -/

/-- C2: every binary frame of at most 15 bytes fails decoding
(`parseBinaryTick` yields no record) regardless of byte content, and the
frame is dropped: `handleMessage` leaves the tick store, the SSE
broadcast registry and (never touching them at all) the connection
variables unchanged. -/
theorem short_frame_dropped (table : List (String × String)) (buf : List ℕ)
    (s : FeedState) (h : buf.length ≤ 15) :
    parseBinaryTick buf = none ∧ handleMessage table (.binary buf) s = s := by
  have hp : parseBinaryTick buf = none := by
    simp only [parseBinaryTick]
    rw [if_pos (by omega)]
  exact ⟨hp, by simp [handleMessage, hp]⟩

theorem short_frame_dropped_witness :
    ([0, 1, 2, 3, 4, 5, 6, 7, 8, 9, 10, 11, 12, 13, 14] : List ℕ).length ≤ 15 ∧
      (parseBinaryTick [0, 1, 2, 3, 4, 5, 6, 7, 8, 9, 10, 11, 12, 13, 14] = none ∧
        handleMessage [] (.binary [0, 1, 2, 3, 4, 5, 6, 7, 8, 9, 10, 11, 12, 13, 14])
          { store := [], clients := [] } = { store := [], clients := [] }) :=
  ⟨by decide,
    short_frame_dropped [] [0, 1, 2, 3, 4, 5, 6, 7, 8, 9, 10, 11, 12, 13, 14]
      { store := [], clients := [] } (by decide)⟩

/-- C3: the 16-byte frame with byte 0 = 2, bytes 4-7 the little-endian
unsigned 2885, bytes 8-11 the little-endian IEEE-754 binary32 encoding
of 2456.5 (word `0x45198800`), and bytes 12-15 the little-endian
unsigned 1700000000 decodes to message type 2, security id 2885, price
exactly 2456.5 and timestamp 1700000000. -/
theorem decode_ltp_frame :
    parseBinaryTick [2, 0, 0, 0, 69, 11, 0, 0, 0, 136, 25, 69, 0, 241, 83, 101] =
      some { messageType := 2, securityId := 2885,
             price := F32.finite (2456.5 : ℚ), timestamp := 1700000000 } := by
  simp only [parseBinaryTick, readUInt32LE, readUInt8, readFloatLE, decodeFloat32]
  norm_num

/-- C6: `resolveSymbol` on the decimal form of a security id: when the
id is absent from the table it returns exactly `"securityId:<id>"`
(total, deterministic), and when present it returns the table's
symbol. -/
theorem resolveSymbol_lookup (table : List (String × String)) (id : ℕ) :
    (mapGet table (toString id) = none →
      resolveSymbol table (some (toString id)) = "securityId:" ++ toString id) ∧
    (∀ sym, mapGet table (toString id) = some sym →
      resolveSymbol table (some (toString id)) = sym) := by
  constructor
  · intro h
    simp [resolveSymbol, natToString_ne_empty id, h]
  · intro sym h
    simp [resolveSymbol, natToString_ne_empty id, h]

theorem resolveSymbol_lookup_witness :
    (mapGet ([] : List (String × String)) (toString 2885) = none ∧
      resolveSymbol ([] : List (String × String)) (some (toString 2885)) =
        "securityId:" ++ toString 2885) ∧
    (mapGet [("2885", "RELIANCE")] (toString 2885) = some "RELIANCE" ∧
      resolveSymbol [("2885", "RELIANCE")] (some (toString 2885)) = "RELIANCE") :=
  ⟨⟨rfl, (resolveSymbol_lookup ([] : List (String × String)) 2885).1 rfl⟩,
    ⟨rfl, (resolveSymbol_lookup [("2885", "RELIANCE")] 2885).2 "RELIANCE" rfl⟩⟩

/-- C10: querying the store with security id 0 takes the falsy branch of
`if (securityId)` and returns the whole map — indistinguishable from the
no-argument snapshot call — even when a record is stored under id 0. -/
theorem getTickData_zero_is_snapshot (store : List (ℕ × TickData)) (r : TickData)
    (h : mapGet store 0 = some r) :
    getTickData store (some 0) = .wholeStore store ∧
    getTickData store (some 0) = getTickData store none ∧
    getTickData store (some 0) ≠ .record (some r) := by
  refine ⟨rfl, rfl, ?_⟩
  intro hc
  exact TickQuery.noConfusion hc

theorem getTickData_zero_is_snapshot_witness :
    mapGet ([(0, ⟨0, "X", F32.finite 1, 7, 2, "LTP"⟩)] : List (ℕ × TickData)) 0 =
      some ⟨0, "X", F32.finite 1, 7, 2, "LTP"⟩ ∧
    (getTickData [(0, ⟨0, "X", F32.finite 1, 7, 2, "LTP"⟩)] (some 0) =
      .wholeStore [(0, ⟨0, "X", F32.finite 1, 7, 2, "LTP"⟩)] ∧
     getTickData [(0, ⟨0, "X", F32.finite 1, 7, 2, "LTP"⟩)] (some 0) =
      getTickData [(0, ⟨0, "X", F32.finite 1, 7, 2, "LTP"⟩)] none ∧
     getTickData [(0, ⟨0, "X", F32.finite 1, 7, 2, "LTP"⟩)] (some 0) ≠
      .record (some ⟨0, "X", F32.finite 1, 7, 2, "LTP"⟩)) :=
  ⟨rfl, getTickData_zero_is_snapshot _ _ rfl⟩

/-- C5: for every instant (UTC hour and minute of day), the market
clock agrees with the spec-side formula — minutes since midnight of the
IST day at the fixed UTC+5:30 offset, within `[09:15, 15:30]` inclusive
on both ends — and in particular it is true at 09:15 IST (03:45 UTC)
and 15:30 IST (10:00 UTC) and false at 09:14 IST and 15:31 IST. -/
theorem marketClock_window (utcH utcM : ℕ) (hh : utcH < 24) (hm : utcM < 60) :
    isMarketOpen utcH utcM = isActiveSpec utcH utcM ∧
    isMarketOpen 3 45 = true ∧ isMarketOpen 10 0 = true ∧
    isMarketOpen 3 44 = false ∧ isMarketOpen 10 1 = false := by
  refine ⟨?_, by decide, by decide, by decide, by decide⟩
  simp only [isMarketOpen, isActiveSpec, istMinutesOfDay]
  rw [Bool.eq_iff_iff]
  simp only [Bool.and_eq_true, decide_eq_true_eq]
  omega

theorem marketClock_window_witness :
    3 < 24 ∧ 45 < 60 ∧
      (isMarketOpen 3 45 = isActiveSpec 3 45 ∧
        isMarketOpen 3 45 = true ∧ isMarketOpen 10 0 = true ∧
        isMarketOpen 3 44 = false ∧ isMarketOpen 10 1 = false) :=
  ⟨by decide, by decide, marketClock_window 3 45 (by decide) (by decide)⟩

/-- C4: encoding the subscription for any 220-instrument list produces
exactly three subscribe-request messages with `RequestCode` 15 and
`InstrumentCount` equal to the chunk sizes 100, 100 and 20, whose
`{ExchangeSegment, SecurityId}` pairs concatenate to the whole list in
original order, followed by exactly one mode-set message
`{RequestCode: 16, Mode: 1}`.  (The encoder is a pure function of the
list, which it never mutates.) -/
theorem batching_220 (insts : List Instrument) (h : insts.length = 220) :
    ∃ l1 l2 l3 : List (String × String),
      encodeSubscription insts =
        [OutMsg.subscribe 15 100 l1, OutMsg.subscribe 15 100 l2,
         OutMsg.subscribe 15 20 l3, OutMsg.modeSet 16 1] ∧
      l1.length = 100 ∧ l2.length = 100 ∧ l3.length = 20 ∧
      l1 ++ l2 ++ l3 = insts.map (fun i => (i.exchange, i.securityId)) := by
  refine ⟨(insts.take 100).map (fun i => (i.exchange, i.securityId)),
    ((insts.drop 100).take 100).map (fun i => (i.exchange, i.securityId)),
    (insts.drop 200).map (fun i => (i.exchange, i.securityId)), ?_, ?_, ?_, ?_, ?_⟩
  · have h1 : insts ≠ [] := by intro hc; rw [hc] at h; simp at h
    have h2 : insts.drop 100 ≠ [] := by
      intro hc
      have := congrArg List.length hc
      simp [h] at this
    have h3 : insts.drop 200 ≠ [] := by
      intro hc
      have := congrArg List.length hc
      simp [h] at this
    have h4 : (insts.drop 200).drop 100 = [] := by
      rw [List.drop_drop]
      apply List.drop_eq_nil_of_le
      simp [h]
    have hd : (insts.drop 100).drop 100 = insts.drop 200 := by
      rw [List.drop_drop]
    have ht1 : (insts.take 100).length = 100 := by simp [h]
    have ht2 : ((insts.drop 100).take 100).length = 100 := by simp [h]
    have ht3 : (insts.drop 200).take 100 = insts.drop 200 := by
      apply List.take_of_length_le
      simp [h]
    rw [encodeSubscription, subscribeBatches, if_neg h1]
    simp only [BATCH_SIZE]
    rw [subscribeBatches, if_neg h2]
    simp only [BATCH_SIZE]
    rw [hd, subscribeBatches, if_neg h3]
    simp only [BATCH_SIZE]
    rw [h4, subscribeBatches, if_pos rfl]
    rw [ht1, ht2, ht3]
    simp [h]
  · simp [h]
  · simp [h]
  · simp [h]
  · rw [← List.map_append, ← List.map_append]
    congr 1
    rw [List.append_assoc]
    rw [show (insts.drop 200 : List Instrument) = (insts.drop 100).drop 100 by
      rw [List.drop_drop]]
    rw [List.take_append_drop, List.take_append_drop]

theorem batching_220_witness :
    ((List.range 220).map
        (fun n => ({ symbol := toString n, securityId := toString n,
                     exchange := "NSE_EQ" } : Instrument))).length = 220 ∧
      (∃ l1 l2 l3 : List (String × String),
        encodeSubscription
            ((List.range 220).map
              (fun n => ({ symbol := toString n, securityId := toString n,
                           exchange := "NSE_EQ" } : Instrument))) =
          [OutMsg.subscribe 15 100 l1, OutMsg.subscribe 15 100 l2,
           OutMsg.subscribe 15 20 l3, OutMsg.modeSet 16 1] ∧
        l1.length = 100 ∧ l2.length = 100 ∧ l3.length = 20 ∧
        l1 ++ l2 ++ l3 =
          ((List.range 220).map
            (fun n => ({ symbol := toString n, securityId := toString n,
                         exchange := "NSE_EQ" } : Instrument))).map
            (fun i => (i.exchange, i.securityId))) :=
  ⟨by simp, batching_220 _ (by simp)⟩

/-- C9 counterexample: for the concrete one-element instrument list
whose instrument has an empty `securityId`, the symbol table is built
without any error being raised, and with the market closed the
subscription routine returns successfully — no `ConfigurationError` is
raised at table construction, nor at open time when the market is
closed. -/
theorem invalid_instrument_silently_accepted :
    buildSymbolTable [{ symbol := "X", securityId := "", exchange := "NSE_EQ" }] =
      [("", "X")] ∧
    subscribeToStockCodes false true
        [{ symbol := "X", securityId := "", exchange := "NSE_EQ" }] = .ok [] :=
  ⟨rfl, rfl⟩

/-- C9 amended: with an instrument missing its `securityId` or exchange
segment, no subscription message is ever sent on any connection — the
validation error precedes every send when the market is open and the
socket open, and otherwise the routine returns early sending nothing —
but the error is raised inside the subscription routine (after the
market-hours and socket-state guards), not at table construction. -/
theorem invalid_instruments_never_subscribed (insts : List Instrument)
    (marketOpen wsOpen : Bool)
    (h : ∃ i ∈ insts, i.securityId = "" ∨ i.exchange = "") :
    sentMessages (subscribeToStockCodes marketOpen wsOpen insts) = [] ∧
    (marketOpen = true → wsOpen = true →
      subscribeToStockCodes marketOpen wsOpen insts =
        .error "Invalid Dhan instrument mapping") := by
  have hinv : (invalidInstruments insts).length > 0 := by
    obtain ⟨i, hmem, hbad⟩ := h
    have : i ∈ invalidInstruments insts := by
      rw [invalidInstruments, List.mem_filter]
      refine ⟨hmem, ?_⟩
      rcases hbad with hb | hb <;> simp [hb]
    exact List.length_pos.mpr (List.ne_nil_of_mem this)
  constructor
  · cases marketOpen <;> cases wsOpen <;>
      simp [subscribeToStockCodes, sentMessages, hinv]
  · intro hmo hw
    subst hmo hw
    simp [subscribeToStockCodes, hinv]

theorem invalid_instruments_never_subscribed_witness :
    (∃ i ∈ ([{ symbol := "X", securityId := "", exchange := "NSE_EQ" }] :
        List Instrument), i.securityId = "" ∨ i.exchange = "") ∧
    (sentMessages (subscribeToStockCodes true true
        [{ symbol := "X", securityId := "", exchange := "NSE_EQ" }]) = [] ∧
      (true = true → true = true →
        subscribeToStockCodes true true
            [{ symbol := "X", securityId := "", exchange := "NSE_EQ" }] =
          .error "Invalid Dhan instrument mapping")) :=
  ⟨⟨_, List.mem_singleton.mpr rfl, Or.inl rfl⟩,
    invalid_instruments_never_subscribed _ true true
      ⟨_, List.mem_singleton.mpr rfl, Or.inl rfl⟩⟩

theorem applyBroadcasts_getLast (ts : List TickData) :
    ∀ (cs : Clients) (id : String) (log : List StreamMsg),
      (applyBroadcasts ts (cs ++ [(id, log)])).getLast? =
        some (id, log ++ ts.map StreamMsg.tick) := by
  induction ts with
  | nil => intro cs id log; simp [applyBroadcasts]
  | cons t ts ih =>
      intro cs id log
      have hb : broadcastTickData t (cs ++ [(id, log)]) =
          broadcastTickData t cs ++ [(id, log ++ [StreamMsg.tick t])] := by
        simp [broadcastTickData]
      calc (applyBroadcasts (t :: ts) (cs ++ [(id, log)])).getLast?
          = (applyBroadcasts ts (broadcastTickData t (cs ++ [(id, log)]))).getLast? := rfl
        _ = (applyBroadcasts ts
              (broadcastTickData t cs ++ [(id, log ++ [StreamMsg.tick t])])).getLast? := by
            rw [hb]
        _ = some (id, (log ++ [StreamMsg.tick t]) ++ ts.map StreamMsg.tick) :=
            ih (broadcastTickData t cs) id (log ++ [StreamMsg.tick t])
        _ = some (id, log ++ (t :: ts).map StreamMsg.tick) := by simp

/-- C7 counterexample: subscribing a fresh sink while the tick store is
empty enqueues *nothing* on the new sink — in particular no "initial"
message with the (empty) snapshot payload — because `subscribeToTicks`
guards the initial send with `initialData.length > 0`. -/
theorem subscribe_empty_store_sends_nothing :
    subscribeToTicks [] "a" [] = [("a", [])] ∧
    subscribeToTicks [] "a" [] ≠ [("a", [StreamMsg.initial []])] := by
  constructor
  · rfl
  · intro hc
    have hc' : ([("a", [])] : Clients) = [("a", [StreamMsg.initial []])] :=
      (show subscribeToTicks [] "a" [] = [("a", [])] from rfl).symm.trans hc
    simp at hc'

/-- C7 amended: for every *non-empty* store state, subscribing a fresh
sink immediately enqueues exactly one "initial" message whose payload is
the store snapshot at the moment of subscription, followed (after any
later publishes) only by "tick" messages; and the subscription's
identifier is usable for unsubscribe, which removes exactly the new
registration.  For the empty store no initial message is delivered. -/
theorem subscribe_initial_before_ticks (store : List (ℕ × TickData)) (id : String)
    (clients : Clients) (ticks : List TickData)
    (hstore : store ≠ [])
    (hfresh : clients.any (fun c => c.1 = id) = false) :
    (applyBroadcasts ticks (subscribeToTicks store id clients)).getLast? =
      some (id, StreamMsg.initial (store.map (fun e => e.2)) ::
        ticks.map StreamMsg.tick) ∧
    unsubscribeTicks id (subscribeToTicks store id clients) = clients := by
  have hlen : (store.map (fun e => e.2)).length > 0 := by
    simp [List.length_pos]
    exact hstore
  have hsub : subscribeToTicks store id clients =
      clients ++ [(id, [StreamMsg.initial (store.map (fun e => e.2))])] := by
    simp only [subscribeToTicks]
    have hany : ¬ ((clients.any fun e => e.1 = id) = true) := by
      simp [hfresh]
    rw [if_pos hlen, mapSet, if_neg hany]
  constructor
  · rw [hsub]
    exact applyBroadcasts_getLast ticks clients id _
  · rw [hsub, unsubscribeTicks, mapDelete]
    rw [List.filter_append]
    have h1 : clients.filter (fun e => ¬ e.1 = id) = clients := by
      apply List.filter_eq_self.mpr
      intro c hc
      simp only [decide_eq_true_eq]
      intro hcid
      have hcl : (clients.any fun e => e.1 = id) = true :=
        List.any_eq_true.mpr ⟨c, hc, by simp [hcid]⟩
      have this := hfresh ▸ hcl
      exact Bool.noConfusion this
    rw [h1]
    simp

theorem subscribe_initial_before_ticks_witness :
    (([(5, ⟨5, "X", F32.finite 1, 7, 2, "LTP"⟩)] : List (ℕ × TickData)) ≠ [] ∧
      ([] : Clients).any (fun c => c.1 = "a") = false) ∧
    ((applyBroadcasts [⟨5, "X", F32.finite 2, 8, 2, "LTP"⟩]
        (subscribeToTicks [(5, ⟨5, "X", F32.finite 1, 7, 2, "LTP"⟩)] "a" [])).getLast? =
      some ("a", StreamMsg.initial
          (([(5, ⟨5, "X", F32.finite 1, 7, 2, "LTP"⟩)] :
            List (ℕ × TickData)).map (fun e => e.2)) ::
        ([⟨5, "X", F32.finite 2, 8, 2, "LTP"⟩] : List TickData).map StreamMsg.tick) ∧
      unsubscribeTicks "a"
        (subscribeToTicks [(5, ⟨5, "X", F32.finite 1, 7, 2, "LTP"⟩)] "a" []) = []) :=
  ⟨⟨by simp, rfl⟩,
    subscribe_initial_before_ticks [(5, ⟨5, "X", F32.finite 1, 7, 2, "LTP"⟩)] "a" []
      [⟨5, "X", F32.finite 2, 8, 2, "LTP"⟩] (by simp) rfl⟩

/-- C8 counterexample: after a connect attempt whose transport has since
closed (reconnect timer pending with the 5000 ms delay), the status
query answers `not_initialized`, not `closed` — so the status is not
derived from whether a connect attempt has ever been made. -/
theorem status_after_close_not_initialized :
    (onClose (connectWebSocket initialMgrState)).attempted = true ∧
    (onClose (connectWebSocket initialMgrState)).pendingTimer = some 5000 ∧
    getSocketStatus (onClose (connectWebSocket initialMgrState)) =
      SocketStatus.notInitialized ∧
    getSocketStatus (onClose (connectWebSocket initialMgrState)) ≠
      SocketStatus.closed :=
  ⟨rfl, rfl, rfl, fun hc => SocketStatus.noConfusion hc⟩

/-- C8 amended: the status query returns exactly one of the four values,
derived purely from the transport handle and the `isConnecting` flag —
`not_initialized` exactly when there is no transport handle and no
connect is in progress, *regardless* of whether a connect attempt has
ever been made; in particular after a connect attempt whose transport
has since closed (reconnect pending) the status is `not_initialized`. -/
theorem status_from_connection_state (s : MgrState) :
    (getSocketStatus s = SocketStatus.notInitialized ↔
      s.ws = none ∧ s.isConnecting = false) ∧
    getSocketStatus (onClose (connectWebSocket initialMgrState)) =
      SocketStatus.notInitialized := by
  refine ⟨?_, rfl⟩
  constructor
  · intro hst
    rcases hws : s.ws with _ | rs
    · refine ⟨rfl, ?_⟩
      rw [getSocketStatus, hws] at hst
      by_contra hcon
      rw [Bool.not_eq_false] at hcon
      rw [if_pos hcon] at hst
      exact SocketStatus.noConfusion hst
    · rw [getSocketStatus, hws] at hst
      cases rs <;> exact SocketStatus.noConfusion hst
  · rintro ⟨hws, hic⟩
    rw [getSocketStatus, hws, hic]
    rfl

theorem connectWebSocket_reconnectDelay (s : MgrState) :
    (connectWebSocket s).reconnectDelay = s.reconnectDelay := by
  rw [connectWebSocket]
  split <;> rfl

theorem closeFireCycle_reconnectDelay (s : MgrState) :
    (closeFireCycle s).reconnectDelay = min (s.reconnectDelay * (3 / 2)) 60000 := by
  rw [closeFireCycle, onTimerFire, connectWebSocket_reconnectDelay]
  rfl

theorem min_cap_step (a : ℚ) :
    min (min a 60000 * (3 / 2)) 60000 = min (a * (3 / 2)) 60000 := by
  rcases le_total a 60000 with hle | hle
  · rw [min_eq_left hle]
  · rw [min_eq_right hle,
      min_eq_right (show (60000 : ℚ) ≤ 60000 * (3 / 2) by norm_num),
      min_eq_right (show (60000 : ℚ) ≤ a * (3 / 2) by linarith)]

theorem stateAfterCycles_reconnectDelay (s0 : MgrState)
    (h : s0.reconnectDelay = 5000) (n : ℕ) :
    (stateAfterCycles s0 n).reconnectDelay = min (5000 * (3 / 2) ^ n) 60000 := by
  induction n with
  | zero =>
      rw [stateAfterCycles, h, pow_zero, mul_one]
      rw [min_eq_left (by norm_num)]
  | succ n ih =>
      rw [stateAfterCycles, closeFireCycle_reconnectDelay, ih, min_cap_step,
        pow_succ, mul_assoc]

/-- C1: starting from any state whose reconnect delay is at the 5000 ms
floor (a fresh connect, or the state right after a successful open), the
delay scheduled by the first close is 5000 ms, the delay scheduled by
each subsequent close (closes alternating with timer fires, with no
successful open in between) is the previous delay multiplied by 1.5 and
capped at 60000 ms — so the n-th close schedules
`min (5000 * 1.5^n) 60000`, the sequence 5000, 7500, 11250, 16875, … —
and after any successful open event, the next close schedules a 5000 ms
delay again. -/
theorem backoff_schedule (s0 : MgrState) (h : s0.reconnectDelay = 5000) :
    nthScheduledDelay s0 0 = some 5000 ∧
    (∀ n d, nthScheduledDelay s0 n = some d →
      nthScheduledDelay s0 (n + 1) = some (min (d * (3 / 2)) 60000)) ∧
    (∀ n, nthScheduledDelay s0 n = some (min (5000 * (3 / 2) ^ n) 60000)) ∧
    (∀ s : MgrState, (onClose (onOpen s)).pendingTimer = some 5000) := by
  have hseq : ∀ n, nthScheduledDelay s0 n =
      some (min (5000 * (3 / 2) ^ n) 60000) := by
    intro n
    rw [nthScheduledDelay, onClose, stateAfterCycles_reconnectDelay s0 h n]
  refine ⟨?_, ?_, hseq, fun s => rfl⟩
  · rw [hseq 0, pow_zero, mul_one, min_eq_left (by norm_num)]
  · intro n d hd
    rw [hseq n] at hd
    have hdval : d = min (5000 * (3 / 2) ^ n) 60000 := (Option.some.inj hd).symm
    rw [hseq (n + 1), hdval, min_cap_step, pow_succ, mul_assoc]

theorem backoff_schedule_witness :
    (connectWebSocket initialMgrState).reconnectDelay = 5000 ∧
    (nthScheduledDelay (connectWebSocket initialMgrState) 0 = some 5000 ∧
      (∀ n d, nthScheduledDelay (connectWebSocket initialMgrState) n = some d →
        nthScheduledDelay (connectWebSocket initialMgrState) (n + 1) =
          some (min (d * (3 / 2)) 60000)) ∧
      (∀ n, nthScheduledDelay (connectWebSocket initialMgrState) n =
        some (min (5000 * (3 / 2) ^ n) 60000)) ∧
      (∀ s : MgrState, (onClose (onOpen s)).pendingTimer = some 5000)) :=
  ⟨rfl, backoff_schedule (connectWebSocket initialMgrState) rfl⟩

end DhanFeed
